import Mathlib

/-!
Shallow embedding of `jsonresponse/__init__.py` (the `to_json` decorator of
django-jsonresponse).

Python values that flow through the decorator are modelled by `PyObj`;
exceptions by `PyErr`; a Django request by its read-only GET query
parameters; `HttpResponse` by its body, content type and status code.
Fallible Python code is modelled with `Except PyErr`.
-/

namespace Jsonresponse

/-- A Django request, reduced to the part the decorator reads: the
read-only string-keyed GET query parameters (`req.GET`). -/
structure Request where
  GET : String → Option String

/-- A Python exception, reduced to the attributes `err_to_response` reads:
`__module__` (absent when the object has no such attribute), the
`owner.__name__` qualifier when an `owner` attribute is present, the class
name `__class__.__name__`, and the message `str(err)`. -/
structure PyErr where
  module : Option String
  owner : Option String
  className : String
  msg : String
deriving DecidableEq, Repr

/-- A Python value as seen by the decorator: JSON primitives, lists,
string-keyed dicts, and duck-typed custom objects.  A custom object
carries its truth value (Python `__nonzero__`, default `True`) and its
`serialize(request)` method, which may itself raise. -/
inductive PyObj where
  | vnone
  | vbool (b : Bool)
  | vint (n : Int)
  | vstr (s : String)
  | vlist (elems : List PyObj)
  | vdict (items : List (String × PyObj))
  | obj (booval : Bool) (serializeFn : Request → Except PyErr PyObj)

/-- `django.http.HttpResponse`, reduced to the three fields the decorator
sets: body, content type and status code. -/
structure HttpResponse where
  content : String
  content_type : String
  status_code : Nat
deriving DecidableEq, Repr

/-- A wrapped view function: takes the request, returns a value or raises. -/
abbrev Handler : Type := Request → Except PyErr PyObj

/-- Python truthiness (`bool(obj)`) for the modelled values. -/
def truthy : PyObj → Bool
  | .vnone => false
  | .vbool b => b
  | .vint n => n != 0
  | .vstr s => s != ""
  | .vlist xs => !xs.isEmpty
  | .vdict kvs => !kvs.isEmpty
  | .obj b _ => b

/-- `isinstance(obj, collections.Iterable)`: strings, lists and dicts are
iterable; `None`, numbers, booleans and the modelled custom objects
(which expose only `serialize`) are not. -/
def isIterable : PyObj → Bool
  | .vstr _ => true
  | .vlist _ => true
  | .vdict _ => true
  | _ => false

/-- The elements produced by `for o in obj`: list elements, dict keys,
one-character strings for a string. -/
def iterElems : PyObj → List PyObj
  | .vlist xs => xs
  | .vdict kvs => kvs.map (fun kv => PyObj.vstr kv.1)
  | .vstr s => s.toList.map (fun c => PyObj.vstr (String.singleton c))
  | _ => []

/-- The Python type name of a modelled value, used in error messages. -/
def pyTypeName : PyObj → String
  | .vnone => "NoneType"
  | .vbool _ => "bool"
  | .vint _ => "int"
  | .vstr _ => "str"
  | .vlist _ => "list"
  | .vdict _ => "dict"
  | .obj _ _ => "object"

/-- The `AttributeError` raised by `o.serialize(...)` when `o` has no
`serialize` attribute (Python 2 builtins live in module `exceptions`). -/
def serializeAttributeError (v : PyObj) : PyErr :=
  ⟨some "exceptions", none, "AttributeError",
    "'" ++ pyTypeName v ++ "' object has no attribute 'serialize'"⟩

/-- `o.serialize(req)`: dispatches to the duck-typed method when present,
raises `AttributeError` otherwise. -/
def serializeCall : PyObj → Request → Except PyErr PyObj
  | .obj _ ser, req => ser req
  | v, _ => .error (serializeAttributeError v)

/-- The `TypeError` raised by `json.dumps` on a value it cannot encode. -/
def jsonTypeError : PyErr :=
  ⟨some "exceptions", none, "TypeError", "is not JSON serializable"⟩

/-- Minimal JSON string escaping for the encoder model. -/
def jsonEscapeChar (c : Char) : String :=
  if c = '"' then "\\\""
  else if c = '\\' then "\\\\"
  else if c = '\n' then "\\n"
  else String.singleton c

/-- A JSON string literal. -/
def jsonQuote (s : String) : String :=
  "\"" ++ String.join (s.toList.map jsonEscapeChar) ++ "\""

/-- Indentation padding used by the pretty (debug) encoding. -/
def pad (n : Nat) : String := String.mk (List.replicate n ' ')

/-- Assemble the already-encoded members of a list or dict: compact
(`ind = none`, Python separators) or indented (`ind = some n`, as with
`json.dumps(..., indent=n)`). -/
def joinItems (ind : Option Nat) (lvl : Nat) (opench closech : String)
    (ss : List String) : String :=
  match ind with
  | none => opench ++ String.intercalate ", " ss ++ closech
  | some n =>
    if ss.isEmpty then opench ++ closech
    else
      opench ++ "\n"
        ++ String.intercalate ",\n" (ss.map (fun s => pad ((lvl + 1) * n) ++ s))
        ++ "\n" ++ pad (lvl * n) ++ closech

mutual

/-- `json.dumps` on one value (`ind` models the `indent` kwarg; the
`ensure_ascii` / `encoding` kwargs only affect character escaping and are
modelled uniformly).  A value with no JSON representation — here, a custom
object — raises `TypeError`. -/
def dumpsV (ind : Option Nat) (lvl : Nat) : PyObj → Except PyErr String
  | .vnone => .ok "null"
  | .vbool b => .ok (if b then "true" else "false")
  | .vint n => .ok (toString n)
  | .vstr s => .ok (jsonQuote s)
  | .vlist xs =>
    match dumpsList ind (lvl + 1) xs with
    | .ok ss => .ok (joinItems ind lvl "[" "]" ss)
    | .error e => .error e
  | .vdict kvs =>
    match dumpsDict ind (lvl + 1) kvs with
    | .ok ss => .ok (joinItems ind lvl "\x7b" "\x7d" ss)
    | .error e => .error e
  | .obj _ _ => .error jsonTypeError

/-- `json.dumps` on the elements of a list, left to right. -/
def dumpsList (ind : Option Nat) (lvl : Nat) : List PyObj → Except PyErr (List String)
  | [] => .ok []
  | x :: xs =>
    match dumpsV ind lvl x with
    | .error e => .error e
    | .ok s =>
      match dumpsList ind lvl xs with
      | .error e => .error e
      | .ok ss => .ok (s :: ss)

/-- `json.dumps` on the members of a dict, in member order. -/
def dumpsDict (ind : Option Nat) (lvl : Nat) : List (String × PyObj) → Except PyErr (List String)
  | [] => .ok []
  | kv :: kvs =>
    match dumpsV ind lvl kv.2 with
    | .error e => .error e
    | .ok s =>
      match dumpsDict ind lvl kvs with
      | .error e => .error e
      | .ok ss => .ok ((jsonQuote kv.1 ++ ": " ++ s) :: ss)

end

/-- `json.dumps(data, **kwargs)` at top level. -/
def dumps (ind : Option Nat) (v : PyObj) : Except PyErr String := dumpsV ind 0 v

/-- `req.GET.get(k, d)`. -/
def Request.getD (req : Request) (k d : String) : String := (req.GET k).getD d

/-- ASCII lowering of one character (query values are ASCII, so Python's
`str.lower()` reduces to this on them). -/
def lowerChar (c : Char) : Char :=
  if 'A' ≤ c && c ≤ 'Z' then Char.ofNat (c.toNat + 32) else c

/-- Python `s.lower()`. -/
def pyLower (s : String) : String := String.mk (s.data.map lowerChar)

/-- Membership of a lowered query value in `('true', 't', '1', 'on')`. -/
def truthyParam (s : String) : Bool := ["true", "t", "1", "on"].contains (pyLower s)

/-- The `debug` flag of `render_data` (lines 220-221): the `debug` query
parameter, or the legacy `decode` parameter, matches a truthy literal. -/
def debugOf (req : Request) : Bool :=
  truthyParam (Request.getD req "debug" "false")
    || truthyParam (Request.getD req "decode" "0")

/-- `to_json.render_data` (lines 219-237): derive formatting options from
the query string, encode, optionally wrap as JSONP, build the response. -/
def render_data (req : Request) (data : PyObj) (status : Nat) : Except PyErr HttpResponse :=
  let debug := debugOf req
  let format := Request.getD req "format" "json"
  let jsonp_cb := Request.getD req "callback" "callback"
  match dumps (if debug then some 4 else none) data with
  | .error e => .error e
  | .ok plainTxt =>
    if format = "jsonp" then
      .ok ⟨jsonp_cb ++ "(" ++ plainTxt ++ ");",
           "application/javascript; charset=UTF-8", status⟩
    else
      .ok ⟨plainTxt, "application/json; charset=UTF-8", status⟩

/-- `to_json.err_to_response` (lines 199-217): the failure envelope. -/
def err_to_response (err : PyErr) : PyObj :=
  let err_module :=
    match err.module with
    | some m => m ++ "."
    | none => ""
  let err_module :=
    match err.owner with
    | some ow => err_module ++ ow ++ "."
    | none => err_module
  let err_class := err_module ++ err.className
  PyObj.vdict
    [("err", PyObj.vint 1),
     ("err_class", PyObj.vstr err_class),
     ("err_desc", PyObj.vstr err.msg),
     ("data", PyObj.vnone)]

/-- The list comprehension of line 193:
`[o.serialize(req) if obj else None for o in obj]` — note that the
conditional tests the container `obj`, not the element `o`. -/
def mapSerialize (req : Request) (container : PyObj) : List PyObj → Except PyErr (List PyObj)
  | [] => .ok []
  | o :: os =>
    match (if truthy container then serializeCall o req else .ok PyObj.vnone) with
    | .error e => .error e
    | .ok v =>
      match mapSerialize req container os with
      | .error e => .error e
      | .ok vs => .ok (v :: vs)

/-- Spec-side element normalization, written from the spec's words for
comparison with `mapSerialize`: given a non-empty sequence, every element
is serialized unconditionally, left to right, regardless of the element's
own truthiness. -/
def specUnconditionalSerialize (req : Request) : List PyObj → Except PyErr (List PyObj)
  | [] => .ok []
  | o :: os =>
    match serializeCall o req with
    | .error e => .error e
    | .ok v =>
      match specUnconditionalSerialize req os with
      | .error e => .error e
      | .ok vs => .ok (v :: vs)

/-- `to_json.obj_to_response` (lines 190-197): in `objects` mode a truthy
result is expanded through `serialize`; everything is wrapped in the
success envelope. -/
def obj_to_response (serializer_type : String) (req : Request) (obj : PyObj) :
    Except PyErr PyObj :=
  match
    (if serializer_type = "objects" && truthy obj then
      if isIterable obj then
        match mapSerialize req obj (iterElems obj) with
        | .ok xs => .ok (PyObj.vlist xs)
        | .error e => .error e
      else serializeCall obj req
    else .ok obj) with
  | .error e => .error e
  | .ok o => .ok (PyObj.vdict [("err", PyObj.vint 0), ("data", o)])

/-- Whitespace as stripped by Python `int()`. -/
def isPySpace (c : Char) : Bool := [' ', '\t', '\n', '\r'].contains c

/-- Python `s.strip()` on the characters of a string. -/
def pyStrip (cs : List Char) : List Char :=
  ((cs.dropWhile isPySpace).reverse.dropWhile isPySpace).reverse

/-- Python `int(s)` on a string: strip whitespace, optional sign, digits;
`none` models the `ValueError` on anything else. -/
def pyIntOfString (s : String) : Option Int :=
  let t := pyStrip s.data
  let neg := t.headD ' ' = '-'
  let core := if neg || t.headD ' ' = '+' then t.drop 1 else t
  if core.isEmpty || !(core.all Char.isDigit) then none
  else
    let m : Nat := core.foldl (fun a c => a * 10 + (c.toNat - 48)) 0
    if neg then some (-(m : Int)) else some (m : Int)

/-- `int(req.GET.get('raise', 0))`: the default is the integer `0`; a
present parameter is parsed with `int`, which raises `ValueError` on a
non-numeric string. -/
def pyToInt : Option String → Except PyErr Int
  | none => .ok 0
  | some s =>
    match pyIntOfString s with
    | some n => .ok n
    | none =>
      .error ⟨some "exceptions", none, "ValueError",
        "invalid literal for int() with base 10: " ++ s⟩

/-- `to_json.api` (lines 240-251): run the handler and the normalizer in
one try scope; on a caught error either re-raise (`raise` query parameter
parses nonzero) or build the failure envelope with status 500; then —
outside the try scope — render. -/
def api (serializer_type : String) (f : Handler) (req : Request) :
    Except PyErr HttpResponse :=
  match
    (match f req with
     | .ok resp => obj_to_response serializer_type req resp
     | .error e => .error e) with
  | .ok data => render_data req data 200
  | .error e =>
    match pyToInt (req.GET "raise") with
    | .error e2 => .error e2
    | .ok n => if n != 0 then .error e else render_data req (err_to_response e) 500

/-- `to_json.plain` (lines 253-255): no try scope, no envelope; render the
raw result with the default status 200. -/
def plain (f : Handler) (req : Request) : Except PyErr HttpResponse :=
  match f req with
  | .error e => .error e
  | .ok data => render_data req data 200

/-- `to_json.__call__` (lines 178-188): the wrapper dispatches on the
`serializer_type` fixed at decoration time — `'plain'` goes to `plain`,
everything else goes to `api`. -/
def call (serializer_type : String) (f : Handler) (req : Request) :
    Except PyErr HttpResponse :=
  if serializer_type = "plain" then plain f req
  else api serializer_type f req

/-- Field lookup in a modelled dict value. -/
def dlookup (k : String) : PyObj → Option PyObj
  | .vdict kvs => kvs.lookup k
  | _ => none

/-! Concrete requests, handlers and values used to exercise the model. -/

/-- A request whose GET parameters are the given association list. -/
def mkReq (ps : List (String × String)) : Request := ⟨fun k => ps.lookup k⟩

/-- A request with no query parameters. -/
def req0 : Request := mkReq []

/-- A request carrying `raise=1`. -/
def reqRaise : Request := mkReq [("raise", "1")]

/-- A request carrying `format=jsonp` and no `callback` parameter. -/
def reqJsonp : Request := mkReq [("format", "jsonp")]

/-- The exception thrown in the module's own doctests. -/
def eBoom : PyErr := ⟨some "exceptions", none, "Exception", "Wooot!??"⟩

/-- A handler that always throws `eBoom`. -/
def hBoom : Handler := fun _ => .error eBoom

/-- A handler returning a plain integer. -/
def hGood : Handler := fun _ => .ok (PyObj.vint 5)

/-- A handler returning a plain string. -/
def hStr : Handler := fun _ => .ok (PyObj.vstr "x")

/-- A falsy custom object (Python `__nonzero__` returning `False`) whose
`serialize` nevertheless succeeds. -/
def elemFalsy : PyObj := PyObj.obj false (fun _ => .ok (PyObj.vstr "bob"))

/-- A one-element (hence truthy) list whose only element is falsy. -/
def seqC1 : PyObj := PyObj.vlist [elemFalsy]

/-- A truthy custom object: not JSON-encodable, `serialize` succeeds. -/
def objNotJson : PyObj := PyObj.obj true (fun _ => .ok PyObj.vnone)

/-- A handler returning `objNotJson` (fine in `api` mode until encoding). -/
def hNotJson : Handler := fun _ => .ok objNotJson

/-- A handler returning a list whose element has no `serialize` method, so
`objects`-mode normalization raises `AttributeError`. -/
def hSerFail : Handler := fun _ => .ok (PyObj.vlist [PyObj.vint 1])

/-! Helper lemmas. -/

/-- Over a truthy container the comprehension of line 193 serializes every
element unconditionally: its container-truthiness conditional always takes
the `serialize` branch. -/
theorem mapSerialize_eq_spec (req : Request) (c : PyObj) (h : truthy c = true) :
    ∀ l : List PyObj, mapSerialize req c l = specUnconditionalSerialize req l := by
  intro l
  induction l with
  | nil => rfl
  | cons o os ih =>
    simp only [mapSerialize, specUnconditionalSerialize, h, if_true, ih]

/-- A response actually built by `render_data` carries the status passed in. -/
theorem render_data_status (req : Request) (d : PyObj) (status : Nat)
    (resp : HttpResponse) (h : render_data req d status = .ok resp) :
    resp.status_code = status := by
  simp only [render_data] at h
  cases hd : dumps (if debugOf req then some 4 else none) d with
  | error e => rw [hd] at h; cases h
  | ok s =>
    rw [hd] at h
    by_cases hf : Request.getD req "format" "json" = "jsonp" <;>
      simp only [hf, if_true, if_false, reduceIte] at h <;>
      (cases h; rfl)

/-- When the payload encodes, `render_data` succeeds with the given status. -/
theorem render_data_ok_of_dumps (req : Request) (d : PyObj) (status : Nat)
    (s : String) (h : dumps (if debugOf req then some 4 else none) d = .ok s) :
    ∃ resp, render_data req d status = .ok resp ∧ resp.status_code = status := by
  simp only [render_data]
  rw [h]
  by_cases hf : Request.getD req "format" "json" = "jsonp" <;>
    simp only [hf, if_true, if_false, reduceIte] <;> exact ⟨_, rfl, rfl⟩

/-- The failure envelope always JSON-encodes: its members are scalars. -/
theorem dumps_err_to_response_ok (ind : Option Nat) (e : PyErr) :
    ∃ s, dumps ind (err_to_response e) = .ok s := by
  cases ind <;> simp [dumps, err_to_response, dumpsV, dumpsDict, joinItems]

/-- For a mode other than `objects`, `obj_to_response` wraps verbatim. -/
theorem obj_to_response_ne_objects (st : String) (h : st ≠ "objects")
    (req : Request) (o : PyObj) :
    obj_to_response st req o = .ok (PyObj.vdict [("err", PyObj.vint 0), ("data", o)]) := by
  simp [obj_to_response, h]

/-! Claim theorems. -/

/-- C1: in `objects` mode, for every truthy iterable handler result, the
normalizer serializes every element unconditionally — each element `o` is
replaced by `o.serialize(request)` whether or not `o` itself is falsy or
null, because line 193's truthiness conditional tests the iterable itself
rather than the element. -/
theorem c1_objects_serializes_every_element (req : Request) (obj : PyObj)
    (ht : truthy obj = true) (hi : isIterable obj = true) :
    obj_to_response "objects" req obj =
      match specUnconditionalSerialize req (iterElems obj) with
      | .ok xs => .ok (PyObj.vdict [("err", PyObj.vint 0), ("data", PyObj.vlist xs)])
      | .error e => .error e := by
  simp only [obj_to_response, ht, hi, mapSerialize_eq_spec req obj ht]
  cases specUnconditionalSerialize req (iterElems obj) <;> rfl

/-- C1 witness: a truthy one-element sequence whose only element is falsy —
the element is serialized anyway. -/
theorem c1_objects_serializes_every_element_witness :
    truthy elemFalsy = false ∧ truthy seqC1 = true ∧ isIterable seqC1 = true ∧
    obj_to_response "objects" req0 seqC1 =
      .ok (PyObj.vdict [("err", PyObj.vint 0), ("data", PyObj.vlist [PyObj.vstr "bob"])]) :=
  ⟨rfl, rfl, rfl, (c1_objects_serializes_every_element req0 seqC1 rfl rfl).trans rfl⟩

/-- C3: in `api` mode, a successful handler result `r` is wrapped verbatim
(no serialize call) into the envelope with `err = 0` and `data = r`, which
is rendered with status 200; whenever a response is produced, its status
code is 200. -/
theorem c3_api_success_verbatim_envelope (f : Handler) (req : Request)
    (r : PyObj) (hf : f req = .ok r) :
    obj_to_response "api" req r = .ok (PyObj.vdict [("err", PyObj.vint 0), ("data", r)])
    ∧ call "api" f req =
        render_data req (PyObj.vdict [("err", PyObj.vint 0), ("data", r)]) 200
    ∧ ∀ resp, call "api" f req = .ok resp → resp.status_code = 200 := by
  have henv : obj_to_response "api" req r =
      .ok (PyObj.vdict [("err", PyObj.vint 0), ("data", r)]) :=
    obj_to_response_ne_objects "api" (by decide) req r
  have hcall : call "api" f req =
      render_data req (PyObj.vdict [("err", PyObj.vint 0), ("data", r)]) 200 := by
    show api "api" f req = _
    unfold api
    simp only [hf, henv]
  exact ⟨henv, hcall, fun resp hresp =>
    render_data_status req _ 200 resp (hcall ▸ hresp)⟩

/-- C3 witness: a handler returning the integer 5 in `api` mode. -/
theorem c3_api_success_verbatim_envelope_witness :
    obj_to_response "api" req0 (PyObj.vint 5) =
      .ok (PyObj.vdict [("err", PyObj.vint 0), ("data", PyObj.vint 5)])
    ∧ call "api" hGood req0 =
        render_data req0 (PyObj.vdict [("err", PyObj.vint 0), ("data", PyObj.vint 5)]) 200 := by
  have h := c3_api_success_verbatim_envelope hGood req0 (PyObj.vint 5) rfl
  exact ⟨h.1, h.2.1⟩

/-- C5: in `api` and `objects` mode, when the request carries `raise=1` and
the handler throws, the wrapped call re-raises the error unchanged — no
failure envelope, no response. -/
theorem c5_raise_param_reraises (st : String) (f : Handler) (req : Request)
    (e : PyErr) (hst : st = "api" ∨ st = "objects")
    (hf : f req = .error e) (hraise : req.GET "raise" = some "1") :
    call st f req = .error e := by
  have hthis : api st f req = .error e := by
    unfold api
    rw [hf, hraise]
    rfl
  rcases hst with h | h <;> subst h <;> exact hthis

/-- C5 witness: the doctest handler, `raise=1` in the query string. -/
theorem c5_raise_param_reraises_witness :
    reqRaise.GET "raise" = some "1" ∧ call "api" hBoom reqRaise = .error eBoom :=
  ⟨rfl, c5_raise_param_reraises "api" hBoom reqRaise eBoom (Or.inl rfl) rfl rfl⟩

/-- C8: in `objects` mode a falsy handler result (null, empty sequence,
empty mapping, zero, ...) is never serialized; the success envelope carries
it unchanged. -/
theorem c8_objects_falsy_passthrough (req : Request) (obj : PyObj)
    (h : truthy obj = false) :
    obj_to_response "objects" req obj =
      .ok (PyObj.vdict [("err", PyObj.vint 0), ("data", obj)]) := by
  simp [obj_to_response, h]

/-- C8 witness: `None`, the empty list and zero pass through unchanged. -/
theorem c8_objects_falsy_passthrough_witness :
    obj_to_response "objects" req0 PyObj.vnone =
      .ok (PyObj.vdict [("err", PyObj.vint 0), ("data", PyObj.vnone)])
    ∧ obj_to_response "objects" req0 (PyObj.vlist []) =
        .ok (PyObj.vdict [("err", PyObj.vint 0), ("data", PyObj.vlist [])])
    ∧ obj_to_response "objects" req0 (PyObj.vint 0) =
        .ok (PyObj.vdict [("err", PyObj.vint 0), ("data", PyObj.vint 0)]) :=
  ⟨c8_objects_falsy_passthrough req0 PyObj.vnone rfl,
   c8_objects_falsy_passthrough req0 (PyObj.vlist []) rfl,
   c8_objects_falsy_passthrough req0 (PyObj.vint 0) rfl⟩

/-- C9: in `plain` mode the raw result is rendered directly with no
envelope, and a thrown handler error propagates unchanged — nothing is
intercepted and no response is constructed. -/
theorem c9_plain_no_envelope_no_catch (f : Handler) (req : Request) :
    (∀ e, f req = .error e → call "plain" f req = .error e)
    ∧ (∀ v, f req = .ok v → call "plain" f req = render_data req v 200) := by
  constructor <;> intro x hx <;> (show plain f req = _) <;> unfold plain <;> rw [hx]

/-- C9 witness: a throwing handler propagates; a returning handler is
rendered raw with status 200 and no envelope. -/
theorem c9_plain_no_envelope_no_catch_witness :
    call "plain" hBoom req0 = .error eBoom
    ∧ call "plain" hStr req0 = render_data req0 (PyObj.vstr "x") 200 :=
  ⟨(c9_plain_no_envelope_no_catch hBoom req0).1 eBoom rfl,
   (c9_plain_no_envelope_no_catch hStr req0).2 (PyObj.vstr "x") rfl⟩

/-- C10: any serializer type other than exactly `'plain'` is dispatched to
the `api` path; a mode that is none of `plain`, `api`, `objects` behaves
exactly like `api` mode. -/
theorem c10_unknown_mode_api_dispatch :
    (∀ st, st ≠ "plain" → ∀ (f : Handler) (req : Request),
      call st f req = api st f req)
    ∧ (∀ st, st ≠ "plain" → st ≠ "objects" → ∀ (f : Handler) (req : Request),
      call st f req = call "api" f req) := by
  have base : ∀ st, st ≠ "plain" → ∀ (f : Handler) (req : Request),
      call st f req = api st f req := by
    intro st h f req
    unfold call
    rw [if_neg h]
  refine ⟨base, ?_⟩
  intro st h1 h2 f req
  rw [base st h1, show call "api" f req = api "api" f req from rfl]
  unfold api
  cases hf : f req with
  | error e => rfl
  | ok v =>
    simp only [obj_to_response_ne_objects st h2 req v,
      obj_to_response_ne_objects "api" (by decide) req v]

/-- C2: in `api` and `objects` mode, a thrown handler error with no
`raise` parameter yields the failure envelope — `err = 1`, `data = null`,
`err_desc` the error's string representation, `err_class` the module
qualifier (if present), then the owner-name qualifier (if present), then
the type name, joined with `.` and missing qualifiers omitted — rendered
with HTTP status 500. -/
theorem c2_error_envelope_and_status_500 (st : String) (f : Handler)
    (req : Request) (e : PyErr) (hst : st = "api" ∨ st = "objects")
    (hf : f req = .error e) (hraise : req.GET "raise" = none) :
    err_to_response e =
      PyObj.vdict
        [("err", PyObj.vint 1),
         ("err_class", PyObj.vstr (String.intercalate "."
            ((match e.module with | some m => [m] | none => [])
              ++ (match e.owner with | some ow => [ow] | none => [])
              ++ [e.className]))),
         ("err_desc", PyObj.vstr e.msg),
         ("data", PyObj.vnone)]
    ∧ call st f req = render_data req (err_to_response e) 500
    ∧ ∃ resp, call st f req = .ok resp ∧ resp.status_code = 500 := by
  have henv : err_to_response e =
      PyObj.vdict
        [("err", PyObj.vint 1),
         ("err_class", PyObj.vstr (String.intercalate "."
            ((match e.module with | some m => [m] | none => [])
              ++ (match e.owner with | some ow => [ow] | none => [])
              ++ [e.className]))),
         ("err_desc", PyObj.vstr e.msg),
         ("data", PyObj.vnone)] := by
    rcases e with ⟨mo, ow, cn, ms⟩
    cases mo <;> cases ow <;>
      simp [err_to_response, String.intercalate, String.intercalate.go,
        String.append_assoc]
  have hcall : call st f req = render_data req (err_to_response e) 500 := by
    have hthis : api st f req = render_data req (err_to_response e) 500 := by
      unfold api
      rw [hf, hraise]
      rfl
    rcases hst with h | h <;> subst h <;> exact hthis
  obtain ⟨s, hs⟩ :=
    dumps_err_to_response_ok (if debugOf req then some 4 else none) e
  obtain ⟨resp, hresp, hstatus⟩ :=
    render_data_ok_of_dumps req (err_to_response e) 500 s hs
  exact ⟨henv, hcall, resp, hcall.trans hresp, hstatus⟩

/-- C2 witness: the doctest handler throwing `Exception('Wooot!??')` with
no `raise` parameter. -/
theorem c2_error_envelope_and_status_500_witness :
    err_to_response eBoom =
      PyObj.vdict
        [("err", PyObj.vint 1),
         ("err_class", PyObj.vstr "exceptions.Exception"),
         ("err_desc", PyObj.vstr "Wooot!??"),
         ("data", PyObj.vnone)]
    ∧ call "api" hBoom req0 = render_data req0 (err_to_response eBoom) 500
    ∧ ∃ resp, call "api" hBoom req0 = .ok resp ∧ resp.status_code = 500 := by
  have h := c2_error_envelope_and_status_500 "api" hBoom req0 eBoom
    (Or.inl rfl) rfl rfl
  exact ⟨h.1.trans (by rfl), h.2.1, h.2.2⟩

/-- C7: `format=jsonp` produces the body `<callback>(<json>);` — with the
default name `callback` when no `callback` parameter is supplied — and
content type `application/javascript; charset=UTF-8`; any other format
produces the bare JSON with `application/json; charset=UTF-8`. -/
theorem c7_jsonp_and_json_rendering (req : Request) (data : PyObj)
    (status : Nat) (s : String)
    (h : dumps (if debugOf req then some 4 else none) data = .ok s) :
    (Request.getD req "format" "json" = "jsonp" →
      render_data req data status =
        .ok ⟨Request.getD req "callback" "callback" ++ "(" ++ s ++ ");",
             "application/javascript; charset=UTF-8", status⟩)
    ∧ (Request.getD req "format" "json" ≠ "jsonp" →
      render_data req data status =
        .ok ⟨s, "application/json; charset=UTF-8", status⟩) := by
  constructor <;> intro hfmt <;> simp only [render_data, h] <;> simp [hfmt]

/-- C7 witness: `format=jsonp` with no callback parameter wraps as
`callback(7);`; no format parameter leaves the bare JSON body. -/
theorem c7_jsonp_and_json_rendering_witness :
    render_data reqJsonp (PyObj.vint 7) 200 =
      .ok ⟨"callback(7);", "application/javascript; charset=UTF-8", 200⟩
    ∧ render_data req0 (PyObj.vint 7) 200 =
        .ok ⟨"7", "application/json; charset=UTF-8", 200⟩ := by
  have ha := (c7_jsonp_and_json_rendering reqJsonp (PyObj.vint 7) 200 "7" rfl).1 rfl
  have hb := (c7_jsonp_and_json_rendering req0 (PyObj.vint 7) 200 "7" rfl).2 (by decide)
  exact ⟨ha.trans (by rfl), hb⟩

/-- C4 counterexample: the claim says every normalization failure —
including a payload that fails to JSON-encode — is caught in the same
scope as the handler and produces a 500 envelope unless `raise` is set.
But with no `raise` parameter, a handler result that `json.dumps` rejects
makes the wrapped call itself raise `TypeError`: no envelope, no response. -/
theorem c4_claim_counterexample :
    hNotJson req0 = .ok objNotJson
    ∧ req0.GET "raise" = none
    ∧ call "api" hNotJson req0 = .error jsonTypeError :=
  ⟨rfl, rfl, rfl⟩

/-- C4 (amended): an element's failing `serialize` call in `objects` mode
is raised inside the same try scope as the handler invocation and follows
the handler-error path (500 failure envelope, or re-raise under `raise`);
but JSON-encoding happens in `render_data`, after the try scope, so once
normalization has produced the success envelope the call equals the bare
render of that envelope and any encoding error propagates uncaught. -/
theorem c4_serialize_caught_encode_not :
    (∀ (st : String) (f : Handler) (req : Request) (v : PyObj) (e : PyErr),
      st ≠ "plain" →
      f req = .ok v →
      obj_to_response st req v = .error e →
      req.GET "raise" = none →
      call st f req = render_data req (err_to_response e) 500)
    ∧ (∀ (st : String) (f : Handler) (req : Request) (v data : PyObj),
      st ≠ "plain" →
      f req = .ok v →
      obj_to_response st req v = .ok data →
      call st f req = render_data req data 200) := by
  constructor
  · intro st f req v e hne hf hser hraise
    unfold call
    rw [if_neg hne]
    unfold api
    simp only [hf, hser, hraise]
    rfl
  · intro st f req v data hne hf hok
    unfold call
    rw [if_neg hne]
    unfold api
    simp only [hf, hok]

/-- C4 witness: an `objects`-mode element without `serialize` follows the
error-envelope path; an `api`-mode non-encodable result reaches
`render_data` unprotected. -/
theorem c4_serialize_caught_encode_not_witness :
    call "objects" hSerFail req0 =
      render_data req0 (err_to_response (serializeAttributeError (PyObj.vint 1))) 500
    ∧ call "api" hNotJson req0 =
        render_data req0 (PyObj.vdict [("err", PyObj.vint 0), ("data", objNotJson)]) 200 := by
  have h1 := c4_serialize_caught_encode_not.1 "objects" hSerFail req0
    (PyObj.vlist [PyObj.vint 1]) (serializeAttributeError (PyObj.vint 1))
    (by decide) rfl rfl rfl
  have h2 := c4_serialize_caught_encode_not.2 "api" hNotJson req0 objNotJson
    (PyObj.vdict [("err", PyObj.vint 0), ("data", objNotJson)]) (by decide) rfl rfl
  exact ⟨h1, h2⟩

/-- C6 counterexample: the claim says `data` is null if and only if
`err = 1`, but a handler that returns `None` yields the success envelope
`{err: 0, data: null}` — null data with `err = 0`. -/
theorem c6_claim_counterexample :
    obj_to_response "api" req0 PyObj.vnone =
      .ok (PyObj.vdict [("err", PyObj.vint 0), ("data", PyObj.vnone)])
    ∧ dlookup "err" (PyObj.vdict [("err", PyObj.vint 0), ("data", PyObj.vnone)]) =
        some (PyObj.vint 0)
    ∧ dlookup "data" (PyObj.vdict [("err", PyObj.vint 0), ("data", PyObj.vnone)]) =
        some PyObj.vnone :=
  ⟨rfl, rfl, rfl⟩

/-- C6 (amended): every envelope the normalizer produces carries `err`
exactly 0 (success) or 1 (failure) with a `data` field present; on the
failure path `data` is null; but a success envelope's `data` may itself be
null (when the normalized handler result is null), so null `data` does not
imply `err = 1`. -/
theorem c6_err_flag_and_null_data :
    (∀ (st : String) (req : Request) (obj env : PyObj),
      obj_to_response st req obj = .ok env →
      dlookup "err" env = some (PyObj.vint 0) ∧ (dlookup "data" env).isSome = true)
    ∧ (∀ e : PyErr,
      dlookup "err" (err_to_response e) = some (PyObj.vint 1)
      ∧ dlookup "data" (err_to_response e) = some PyObj.vnone) := by
  constructor
  · intro st req obj env h
    unfold obj_to_response at h
    cases hinner :
        (if (st = "objects" && truthy obj) = true then
          if isIterable obj = true then
            match mapSerialize req obj (iterElems obj) with
            | .ok xs => .ok (PyObj.vlist xs)
            | .error e => .error e
          else serializeCall obj req
        else .ok obj) with
    | error e => rw [hinner] at h; cases h
    | ok o =>
      rw [hinner] at h
      cases h
      exact ⟨rfl, rfl⟩
  · intro e
    exact ⟨rfl, rfl⟩

/-- C6 witness: a success envelope for the integer 5 and the failure
envelope of the doctest exception. -/
theorem c6_err_flag_and_null_data_witness :
    (dlookup "err" (PyObj.vdict [("err", PyObj.vint 0), ("data", PyObj.vint 5)]) =
        some (PyObj.vint 0)
      ∧ (dlookup "data" (PyObj.vdict [("err", PyObj.vint 0), ("data", PyObj.vint 5)])).isSome = true)
    ∧ dlookup "err" (err_to_response eBoom) = some (PyObj.vint 1)
    ∧ dlookup "data" (err_to_response eBoom) = some PyObj.vnone := by
  have h1 := c6_err_flag_and_null_data.1 "api" req0 (PyObj.vint 5)
    (PyObj.vdict [("err", PyObj.vint 0), ("data", PyObj.vint 5)]) rfl
  have h2 := c6_err_flag_and_null_data.2 eBoom
  exact ⟨h1, h2.1, h2.2⟩

/-- C10 witness: the unrecognized mode string `'bogus'`. -/
theorem c10_unknown_mode_api_dispatch_witness :
    call "bogus" hStr req0 = api "bogus" hStr req0
    ∧ call "bogus" hStr req0 = call "api" hStr req0 :=
  ⟨c10_unknown_mode_api_dispatch.1 "bogus" (by decide) hStr req0,
   c10_unknown_mode_api_dispatch.2 "bogus" (by decide) (by decide) hStr req0⟩

end Jsonresponse
